import Mathlib

/-!
Verification development for the Dispatch Register application (`src/app.py`).

The application keeps three persisted tables: `dispatch_records`,
`contacts`, and the singleton `dispatch_sequence` row holding `last_no`.
We embed the database state as a `DB` structure and each Python function
(`insert_data`, `fetch_data`, `add_contact`, `update_contact`,
`delete_contact`, `fetch_contacts`) as a pure Lean function over it.
Failures of the underlying Supabase calls (RPC, insert, sequence update)
are injected through an `Env` record of flags, one per fallible call that
the Python code distinguishes.  Streamlit's `st.success` / `st.warning` /
`st.error` emissions are collected as a list of `Msg` values, so that the
observable messages of each path can be reasoned about.
-/

namespace Dispatch

/-- A row of the `dispatch_records` table, with the columns `insert_data`
writes (`created_at` is never read by the code and is omitted).  Dates are
embedded as natural numbers whose order agrees with the order of the
ISO date strings the code stores. -/
structure DispatchRecord where
  id : Nat
  no : String
  date : Nat
  sect : String
  address : String
  cc : Option String
  subject : String
  remarks : String
  deriving DecidableEq, Repr

/-- A row of the `contacts` table. -/
structure Contact where
  id : Nat
  name : String
  deriving DecidableEq, Repr

/-- The persisted database state: the singleton sequence counter
`last_no`, the dispatch records, the contacts, and the ids the store will
assign next. -/
structure DB where
  last_no : Nat
  records : List DispatchRecord
  contacts : List Contact
  next_record_id : Nat
  next_contact_id : Nat
  deriving DecidableEq, Repr

/-- One Streamlit emission: `st.success`, `st.warning` or `st.error`. -/
inductive Msg where
  | success : String → Msg
  | warning : String → Msg
  | error : String → Msg
  deriving DecidableEq, Repr

/-- Whether some message in the list is a warning. -/
def hasWarning (msgs : List Msg) : Bool :=
  msgs.any fun m => match m with
    | Msg.warning _ => true
    | _ => false

/-- Outcome flags for the three fallible Supabase calls inside
`insert_data`: the `get_next_dispatch_no` RPC, the record insert, and the
sequence-table update. -/
structure Env where
  rpc_ok : Bool
  insert_ok : Bool
  update_ok : Bool
  deriving DecidableEq, Repr

/-- `count_cc_recipients` from `app.py`: `len(cc_list) if cc_list else 0`. -/
def count_cc_recipients (cc_list : List String) : Nat :=
  cc_list.length

/-- Modelled from the spec: the database function `get_next_dispatch_no`
is not under `src/` (only its caller `insert_data` and the app's About
text are).  Per the spec it is a stored procedure that atomically
increments the singleton counter `last_no` server-side and returns the
new value, which the caller uses as the start number.  Given the current
counter it returns `(returned value, new counter)`. -/
def get_next_dispatch_no (last_no : Nat) : Nat × Nat :=
  (last_no + 1, last_no + 1)

/-- The dispatch number string built in steps 3-4 of `insert_data`:
`HDU/{section}/{start}` when `cc_count == 0`, else
`HDU/{section}/{start}-{end}`. -/
def generated_no (sect : String) (start_no end_no cc_count : Nat) : String :=
  if cc_count = 0 then
    "HDU/" ++ sect ++ "/" ++ Nat.repr start_no
  else
    "HDU/" ++ sect ++ "/" ++ Nat.repr start_no ++ "-" ++ Nat.repr end_no

/-- `insert_data` from `app.py`, over the embedded database state.
Returns the database after the call, the Python return value, and the
messages shown.  The steps mirror the source: (1) call the
`get_next_dispatch_no` RPC (which advances the server-side counter by
one even if a later step fails); (2-4) compute `cc_count`, `end_no` and
the `No` string; (5) join the CC list with a comma; (6) insert the
record; (7) on insert success, (8) update the sequence row to
`last_no = end_no`, downgrading an update failure to a warning, and
return `True`; on insert failure show an error and return `False`. -/
def insert_data (env : Env) (db : DB) (sect : String) (date_val : Nat)
    (address : String) (cc_list : List String) (subject remarks : String) :
    DB × Bool × List Msg :=
  if env.rpc_ok = false then
    (db, false, [Msg.error "Exception calling DB function get_next_dispatch_no"])
  else
    let rpc := get_next_dispatch_no db.last_no
    let next_dispatch_number := rpc.1
    let db1 : DB := { db with last_no := rpc.2 }
    let cc_count := count_cc_recipients cc_list
    let end_no := next_dispatch_number + cc_count
    let no := generated_no sect next_dispatch_number end_no cc_count
    let cc_string := if cc_list.isEmpty then none else
      some (String.intercalate ", " cc_list)
    if env.insert_ok then
      let new_record : DispatchRecord :=
        { id := db1.next_record_id, no := no, date := date_val, sect := sect,
          address := address, cc := cc_string, subject := subject,
          remarks := remarks }
      let db2 : DB := { db1 with
        records := db1.records ++ [new_record],
        next_record_id := db1.next_record_id + 1 }
      if env.update_ok then
        ({ db2 with last_no := end_no }, true,
          [Msg.success ("Record added successfully with Dispatch No: " ++ no)])
      else
        (db2, true,
          [Msg.warning ("Record saved with Dispatch No: " ++ no ++
            ", BUT failed to update sequence table. Next number may be incorrect."),
           Msg.success ("Record added successfully with Dispatch No: " ++ no)])
    else
      (db1, false, [Msg.error "Failed to add record"])

/-- The whitespace characters stripped by Python's `str.strip()`. -/
def pyWhitespace (c : Char) : Bool :=
  c == ' ' || c == '\t' || c == '\n' || c == '\r' || c == '\x0b' || c == '\x0c'

/-- Strip `pyWhitespace` characters from both ends of a character list. -/
def stripChars (l : List Char) : List Char :=
  ((l.dropWhile pyWhitespace).reverse.dropWhile pyWhitespace).reverse

/-- Python's `str.strip()` on the embedded strings. -/
def pyStrip (s : String) : String :=
  String.mk (stripChars s.data)

/-- `add_contact` from `app.py`: reject an empty or whitespace-only name
without touching the store; reject a duplicate of the stripped name;
otherwise insert the stripped name. -/
def add_contact (db : DB) (name : String) : DB × Bool × List Msg :=
  if name = "" ∨ pyStrip name = "" then
    (db, false, [Msg.warning "Please enter a contact name."])
  else if db.contacts.any (fun c => c.name == pyStrip name) then
    (db, false, [Msg.warning ("Contact " ++ pyStrip name ++ " already exists.")])
  else
    ({ db with
        contacts := db.contacts ++ [{ id := db.next_contact_id, name := pyStrip name }],
        next_contact_id := db.next_contact_id + 1 }, true,
      [Msg.success ("Added contact " ++ pyStrip name)])

/-- `update_contact` from `app.py`: reject an empty or whitespace-only
name; reject when the stripped name belongs to a different contact id;
otherwise set the contact's name to the stripped name (an update that
matches no row returns no data and is reported as a failure, leaving the
store unchanged). -/
def update_contact (db : DB) (contact_id : Nat) (new_name : String) :
    DB × Bool × List Msg :=
  if new_name = "" ∨ pyStrip new_name = "" then
    (db, false, [Msg.warning "Please enter a contact name."])
  else if db.contacts.any (fun c => c.name == pyStrip new_name && c.id != contact_id) then
    (db, false, [Msg.warning ("Contact name " ++ pyStrip new_name ++ " already exists.")])
  else if db.contacts.any (fun c => c.id == contact_id) then
    ({ db with contacts := db.contacts.map fun c =>
        if c.id = contact_id then { c with name := pyStrip new_name } else c }, true,
      [Msg.success ("Updated contact to " ++ pyStrip new_name)])
  else
    (db, false, [Msg.error "Failed to update contact"])

/-- Whether `needle` occurs as a contiguous substring of the character
list, as SQL `LIKE '%needle%'` tests for patterns without wildcard
characters. -/
def containsSub (needle : List Char) : List Char → Bool
  | [] => needle.isEmpty
  | c :: t => needle.isPrefixOf (c :: t) || containsSub needle t

/-- The `like('CC', f"%{contact_name}%")` check of `delete_contact`: a
substring match against the stored comma-joined CC string; a NULL CC
column never matches. -/
def ccLike (r : DispatchRecord) (name : String) : Bool :=
  match r.cc with
  | some s => containsSub name.data s.data
  | none => false

/-- `delete_contact` from `app.py`: count records using the name as
`Address` (exact match) and records whose CC string contains the name as
a substring; if either count is positive, warn and refuse; otherwise
delete the row with the given id (deleting a missing id returns no data
and is reported as a failure). -/
def delete_contact (db : DB) (contact_id_to_delete : Nat) (contact_name : String) :
    DB × Bool × List Msg :=
  let address_count := db.records.countP fun r => r.address == contact_name
  let cc_count := db.records.countP fun r => ccLike r contact_name
  if address_count > 0 ∨ cc_count > 0 then
    let usage_message :=
      (if address_count > 0 then
        [contact_name ++ " is used as Address in " ++ Nat.repr address_count ++ " record(s)"]
       else []) ++
      (if cc_count > 0 then
        [contact_name ++ " is mentioned in CC in " ++ Nat.repr cc_count ++ " record(s)"]
       else [])
    (db, false, [Msg.warning ("Cannot delete: " ++ String.intercalate ", " usage_message ++ ".")])
  else if db.contacts.any (fun c => c.id == contact_id_to_delete) then
    ({ db with contacts := db.contacts.filter fun c => c.id != contact_id_to_delete },
      true, [Msg.success ("Contact " ++ contact_name ++ " deleted")])
  else
    (db, false, [Msg.error "Failed to delete contact"])

/-- `fetch_contacts` from `app.py`: the contact rows ordered by name,
paired with the list of their names. -/
def fetch_contacts (db : DB) : List Contact × List String :=
  let sorted := db.contacts.mergeSort fun a b => decide (a.name ≤ b.name)
  (sorted, sorted.map fun c => c.name)

/-- The date-range filter `insert`ed into the query by `fetch_data`:
`gte('Date', start)` when a start date is given and `lte('Date', end)`
when an end date is given. -/
def inDateRange (start_date end_date : Option Nat) (r : DispatchRecord) : Bool :=
  (match start_date with
    | some s => decide (s ≤ r.date)
    | none => true) &&
  (match end_date with
    | some e => decide (r.date ≤ e)
    | none => true)

/-- The ordering requested by `fetch_data`:
`order('Date', desc=True).order('id', desc=True)` — date descending,
ties broken by id descending. -/
def dateIdDesc (a b : DispatchRecord) : Bool :=
  decide (b.date < a.date) || (a.date == b.date && decide (b.id ≤ a.id))

/-- `fetch_data` from `app.py`: the records whose date lies in the
requested range, ordered by date descending then id descending. -/
def fetch_data (db : DB) (start_date end_date : Option Nat) : List DispatchRecord :=
  (db.records.filter (inDateRange start_date end_date)).mergeSort dateIdDesc

/-!
Interleaving model of two concurrent `insert_data` submissions.

Each submission performs two separate operations on the shared
`dispatch_sequence` row: first its `get_next_dispatch_no` RPC (which
atomically advances `last_no` by one and yields the start number), and
later — after its record insert — a client-side update setting
`last_no` to its own `end_no = start + cc_count`.  The record insert
itself does not touch the counter, so a schedule is a sequence of these
four counter operations in any order consistent with each call doing its
RPC before its update.
-/

/-- One atomic counter operation of one of two in-flight submissions. -/
inductive Act where
  | rpc1 | rpc2 | upd1 | upd2
  deriving DecidableEq, Repr

/-- The shared counter together with the start numbers the two in-flight
submissions have obtained so far. -/
structure Sys where
  last_no : Nat
  start1 : Option Nat
  start2 : Option Nat
  deriving DecidableEq, Repr

/-- Effect of one atomic counter operation, for submissions with
`cc1` and `cc2` CC recipients: an `rpc` step runs
`get_next_dispatch_no`; an `upd` step runs the
`update({"last_no": end_no})` write with that call's `end_no`.
Steps of a call that has not done its RPC, or a repeated RPC, are
no-ops so that every list of acts denotes a schedule. -/
def stepAct (cc1 cc2 : Nat) (s : Sys) : Act → Sys
  | Act.rpc1 => match s.start1 with
    | none => { s with
        last_no := (get_next_dispatch_no s.last_no).2,
        start1 := some (get_next_dispatch_no s.last_no).1 }
    | some _ => s
  | Act.rpc2 => match s.start2 with
    | none => { s with
        last_no := (get_next_dispatch_no s.last_no).2,
        start2 := some (get_next_dispatch_no s.last_no).1 }
    | some _ => s
  | Act.upd1 => match s.start1 with
    | some st => { s with last_no := st + cc1 }
    | none => s
  | Act.upd2 => match s.start2 with
    | some st => { s with last_no := st + cc2 }
    | none => s

/-- Run a schedule of counter operations from an initial state. -/
def runActs (cc1 cc2 : Nat) (s : Sys) (acts : List Act) : Sys :=
  acts.foldl (stepAct cc1 cc2) s

/-- Two inclusive ranges `[a.1, a.2]` and `[b.1, b.2]` intersect. -/
def rangesOverlap (a b : Nat × Nat) : Bool :=
  decide (max a.1 b.1 ≤ min a.2 b.2)

/-- The in-use test of `delete_contact` as a single boolean: some record
uses the name as its address, or some record's CC string contains it as a
substring. -/
def usedBySubstring (db : DB) (name : String) : Bool :=
  db.records.any (fun r => r.address == name) || db.records.any (fun r => ccLike r name)

/-- Split a character list on the `", "` separator that
`", ".join(cc_list)` placed between CC entries, recovering the entries. -/
def splitCcAux (acc : List Char) : List Char → List String
  | [] => [String.mk acc.reverse]
  | [c] => [String.mk (c :: acc).reverse]
  | c :: d :: rest =>
    if c = ',' ∧ d = ' ' then String.mk acc.reverse :: splitCcAux [] rest
    else splitCcAux (c :: acc) (d :: rest)

/-- The CC entries of a record, recovered from the stored comma-joined
string; a NULL CC column denotes the empty list. -/
def ccElems (r : DispatchRecord) : List String :=
  match r.cc with
  | some s => splitCcAux [] s.data
  | none => []

/-- The reference test as the specification words it: the name is some
record's address, or an element of some record's CC list. -/
def referencedAsElement (db : DB) (name : String) : Bool :=
  db.records.any fun r => r.address == name || (ccElems r).contains name

/-- A stored contact name in good standing: non-empty and fixed by
`pyStrip` (no leading or trailing whitespace). -/
def goodName (s : String) : Bool :=
  (s != "") && (pyStrip s == s)

/-- The contact-store invariant: every stored name is in good standing. -/
def goodStore (l : List Contact) : Bool :=
  l.all fun c => goodName c.name

theorem countP_pos_iff_any {α : Type} (p : α → Bool) (l : List α) :
    0 < l.countP p ↔ l.any p = true := by
  rw [List.countP_pos_iff, List.any_eq_true]

theorem head_dropWhile_false (p : Char → Bool) (l : List Char) :
    ∀ a ∈ (l.dropWhile p).head?, p a = false := by
  induction l with
  | nil => simp [List.dropWhile]
  | cons a t ih =>
    by_cases h : p a
    · simpa [List.dropWhile_cons, h] using ih
    · simp [List.dropWhile_cons, h]

theorem getLast?_dropWhile_of_ne_nil (p : Char → Bool) (l : List Char)
    (h : l.dropWhile p ≠ []) : (l.dropWhile p).getLast? = l.getLast? := by
  induction l with
  | nil => simp [List.dropWhile] at h
  | cons a t ih =>
    by_cases hp : p a
    · rw [List.dropWhile_cons, if_pos hp] at h ⊢
      rcases t with _ | ⟨b, t2⟩
      · simp [List.dropWhile] at h
      · rw [ih h, List.getLast?_cons_cons]
    · rw [List.dropWhile_cons, if_neg hp]

theorem stripChars_getLast (l : List Char) :
    ∀ a ∈ (stripChars l).getLast?, pyWhitespace a = false := by
  intro a ha
  unfold stripChars at ha
  rw [List.getLast?_reverse] at ha
  exact head_dropWhile_false _ _ a ha

theorem stripChars_head (l : List Char) :
    ∀ a ∈ (stripChars l).head?, pyWhitespace a = false := by
  intro a ha
  unfold stripChars at ha
  rw [List.head?_reverse] at ha
  by_cases hne : (l.dropWhile pyWhitespace).reverse.dropWhile pyWhitespace = []
  · rw [hne] at ha
    simp at ha
  · rw [getLast?_dropWhile_of_ne_nil _ _ hne, List.getLast?_reverse] at ha
    exact head_dropWhile_false _ _ a ha

theorem dropWhile_eq_self_of_head_false (p : Char → Bool) (l : List Char)
    (h : ∀ a ∈ l.head?, p a = false) : l.dropWhile p = l := by
  cases l with
  | nil => rfl
  | cons a t =>
    have ha := h a (by simp)
    simp [List.dropWhile_cons, ha]

theorem stripChars_eq_self (l : List Char)
    (h1 : ∀ a ∈ l.head?, pyWhitespace a = false)
    (h2 : ∀ a ∈ l.getLast?, pyWhitespace a = false) : stripChars l = l := by
  unfold stripChars
  rw [dropWhile_eq_self_of_head_false _ _ h1]
  rw [dropWhile_eq_self_of_head_false _ _ (by simpa [List.head?_reverse] using h2)]
  exact List.reverse_reverse l

theorem stripChars_idem (l : List Char) : stripChars (stripChars l) = stripChars l :=
  stripChars_eq_self _ (stripChars_head l) (stripChars_getLast l)

theorem pyStrip_idem (s : String) : pyStrip (pyStrip s) = pyStrip s := by
  unfold pyStrip
  rw [show (String.mk (stripChars s.data)).data = stripChars s.data from rfl, stripChars_idem]

/-- C1: the claim requires every allocation to claim its whole
`[start, end]` range by one atomic read-modify-write, so that concurrent
calls never overlap.  The code instead fetches only the start number
atomically and writes `last_no = end_no` in a separate later step.  At
the failing input — counter at 41, a submission with 2 CC recipients
interleaved with a submission with 0, both RPCs running before either
counter update — the two calls obtain start numbers 42 and 43, so their
claimed ranges `[42, 44]` and `[43, 43]` overlap. -/
theorem claim1_interleaved_ranges_overlap :
    (runActs 2 0 ⟨41, none, none⟩ [Act.rpc1, Act.rpc2]).start1 = some 42 ∧
    (runActs 2 0 ⟨41, none, none⟩ [Act.rpc1, Act.rpc2]).start2 = some 43 ∧
    rangesOverlap (42, 42 + 2) (43, 43 + 0) = true := by
  decide

/-- C2, counterexample: with the counter at 41, a submission with an
empty CC list whose record insert fails leaves the counter at 42, not at
its pre-attempt value 41 — the `get_next_dispatch_no` RPC advance is
never compensated, so a sequence number is consumed by the failed
insert. -/
theorem claim2_counterexample :
    (insert_data ⟨true, false, true⟩ ⟨41, [], [], 1, 1⟩ "ACCTS" 0 "X" [] "s" "").1.last_no = 42 ∧
    (insert_data ⟨true, false, true⟩ ⟨41, [], [], 1, 1⟩ "ACCTS" 0 "X" [] "s" "").2.1 = false ∧
    (42 : Nat) ≠ 41 := by
  decide

/-- C2, amended: when the record insert fails after a successful
`get_next_dispatch_no` call, `insert_data` reports failure and the
persisted counter retains the RPC's one-number advance
(`last_no + 1`); only when the RPC itself fails is the counter
unchanged. -/
theorem claim2_amended_counter_after_failed_insert (env : Env) (db : DB)
    (sect : String) (date_val : Nat) (address : String) (cc_list : List String)
    (subject remarks : String) (h2 : env.insert_ok = false) :
    (env.rpc_ok = true →
      (insert_data env db sect date_val address cc_list subject remarks).1.last_no
        = db.last_no + 1) ∧
    (env.rpc_ok = false →
      (insert_data env db sect date_val address cc_list subject remarks).1.last_no
        = db.last_no) ∧
    (insert_data env db sect date_val address cc_list subject remarks).2.1 = false := by
  refine ⟨fun h1 => ?_, fun h1 => ?_, ?_⟩
  · simp [insert_data, h1, h2, get_next_dispatch_no]
  · simp [insert_data, h1]
  · cases h1 : env.rpc_ok <;> simp [insert_data, h1, h2, get_next_dispatch_no]

theorem claim2_amended_witness :
    (insert_data ⟨true, false, true⟩ ⟨41, [], [], 1, 1⟩ "ACCTS" 0 "X" [] "s" "").1.last_no
      = 41 + 1 ∧
    (insert_data ⟨true, false, true⟩ ⟨41, [], [], 1, 1⟩ "ACCTS" 0 "X" [] "s" "").2.1 = false := by
  have h := claim2_amended_counter_after_failed_insert ⟨true, false, true⟩
    ⟨41, [], [], 1, 1⟩ "ACCTS" 0 "X" [] "s" "" rfl
  exact ⟨h.1 rfl, h.2.2⟩

/-- C4: starting from `last_no = 41`, a successful submission with
section `ACCTS` and CC list `["A", "B"]` produces the dispatch number
`HDU/ACCTS/42-44` and leaves the counter at 44, and an immediately
following successful submission with an empty CC list produces
`HDU/ACCTS/45` and leaves the counter at 45. -/
theorem claim4_sequential_scenario :
    ((insert_data ⟨true, true, true⟩ ⟨41, [], [], 1, 1⟩ "ACCTS" 0 "Addr" ["A", "B"] "s" "").1.records.map
        DispatchRecord.no = ["HDU/ACCTS/42-44"] ∧
      (insert_data ⟨true, true, true⟩ ⟨41, [], [], 1, 1⟩ "ACCTS" 0 "Addr" ["A", "B"] "s" "").1.last_no = 44 ∧
      (insert_data ⟨true, true, true⟩ ⟨41, [], [], 1, 1⟩ "ACCTS" 0 "Addr" ["A", "B"] "s" "").2.1 = true) ∧
    ((insert_data ⟨true, true, true⟩
        (insert_data ⟨true, true, true⟩ ⟨41, [], [], 1, 1⟩ "ACCTS" 0 "Addr" ["A", "B"] "s" "").1
        "ACCTS" 0 "Addr" [] "s" "").1.records.map DispatchRecord.no
        = ["HDU/ACCTS/42-44", "HDU/ACCTS/45"] ∧
      (insert_data ⟨true, true, true⟩
        (insert_data ⟨true, true, true⟩ ⟨41, [], [], 1, 1⟩ "ACCTS" 0 "Addr" ["A", "B"] "s" "").1
        "ACCTS" 0 "Addr" [] "s" "").1.last_no = 45 ∧
      (insert_data ⟨true, true, true⟩
        (insert_data ⟨true, true, true⟩ ⟨41, [], [], 1, 1⟩ "ACCTS" 0 "Addr" ["A", "B"] "s" "").1
        "ACCTS" 0 "Addr" [] "s" "").2.1 = true) := by
  decide

/-- C5, counterexample: `last_no` is not monotonically non-decreasing
once two submissions interleave — after the schedule
rpc1, rpc2, upd1 (counter at 44), the remaining counter update upd2 of
the 0-CC submission writes its own `end_no = 43`, decreasing the
counter. -/
theorem claim5_counterexample :
    (runActs 2 0 ⟨41, none, none⟩ [Act.rpc1, Act.rpc2, Act.upd1, Act.upd2]).last_no
      < (runActs 2 0 ⟨41, none, none⟩ [Act.rpc1, Act.rpc2, Act.upd1]).last_no := by
  decide

/-- C5, amended: along serial executions the counter invariant holds —
every `insert_data` call leaves `last_no` at least as large as it found
it (it is a natural number, hence always at least 0), and no other
operation of the system (`add_contact`, `update_contact`,
`delete_contact`, `fetch_data`, `fetch_contacts`) reads or writes it:
they all leave `last_no` exactly unchanged. -/
theorem claim5_amended_serial_monotone (env : Env) (db : DB) (sect : String)
    (date_val : Nat) (address : String) (cc_list : List String)
    (subject remarks name : String) (cid : Nat) (sd ed : Option Nat) :
    db.last_no ≤ (insert_data env db sect date_val address cc_list subject remarks).1.last_no ∧
    (add_contact db name).1.last_no = db.last_no ∧
    (update_contact db cid name).1.last_no = db.last_no ∧
    (delete_contact db cid name).1.last_no = db.last_no ∧
    (fetch_data db sd ed, fetch_contacts db).1 = fetch_data db sd ed := by
  refine ⟨?_, ?_, ?_, ?_, rfl⟩
  · rcases env with ⟨ro, io, uo⟩
    cases ro <;> cases io <;> cases uo <;>
      simp [insert_data, get_next_dispatch_no, count_cc_recipients] <;> try omega
  · unfold add_contact
    split
    · rfl
    split <;> rfl
  · unfold update_contact
    split
    · rfl
    split
    · rfl
    split <;> rfl
  · simp only [delete_contact]
    split
    · rfl
    split <;> rfl

/-- C7: when the record insert succeeds but the sequence-table update
fails, `insert_data` surfaces an observable warning to the caller naming
the saved dispatch number and stating that the sequence update failed
and the next number may be incorrect; the failure is not silent. -/
theorem claim7_warning_on_update_failure (env : Env) (db : DB) (sect : String)
    (date_val : Nat) (address : String) (cc_list : List String)
    (subject remarks : String) (h1 : env.rpc_ok = true)
    (h2 : env.insert_ok = true) (h3 : env.update_ok = false) :
    Msg.warning ("Record saved with Dispatch No: " ++
        generated_no sect (db.last_no + 1) (db.last_no + 1 + cc_list.length) cc_list.length ++
        ", BUT failed to update sequence table. Next number may be incorrect.")
      ∈ (insert_data env db sect date_val address cc_list subject remarks).2.2 ∧
    hasWarning (insert_data env db sect date_val address cc_list subject remarks).2.2 = true := by
  constructor
  · simp [insert_data, h1, h2, h3, get_next_dispatch_no, count_cc_recipients]
  · simp [insert_data, h1, h2, h3, hasWarning]

theorem claim7_witness :
    Msg.warning ("Record saved with Dispatch No: " ++
        generated_no "ACCTS" (41 + 1) (41 + 1 + 0) 0 ++
        ", BUT failed to update sequence table. Next number may be incorrect.")
      ∈ (insert_data ⟨true, true, false⟩ ⟨41, [], [], 1, 1⟩ "ACCTS" 0 "X" [] "s" "").2.2 ∧
    hasWarning (insert_data ⟨true, true, false⟩ ⟨41, [], [], 1, 1⟩ "ACCTS" 0 "X" [] "s" "").2.2 = true := by
  have h := claim7_warning_on_update_failure ⟨true, true, false⟩ ⟨41, [], [], 1, 1⟩
    "ACCTS" 0 "X" [] "s" "" rfl rfl rfl
  simpa using h

/-- C9 (implicit): whenever the record insert succeeds, `insert_data`
returns `True`, whatever the outcome of the subsequent sequence-table
update — a counter-update failure never turns a completed submission
into a reported failure. -/
theorem claim9_insert_success_reports_true (env : Env) (db : DB) (sect : String)
    (date_val : Nat) (address : String) (cc_list : List String)
    (subject remarks : String) (h1 : env.rpc_ok = true) (h2 : env.insert_ok = true) :
    (insert_data env db sect date_val address cc_list subject remarks).2.1 = true := by
  cases h3 : env.update_ok <;> simp [insert_data, h1, h2, h3]

theorem claim9_witness :
    (insert_data ⟨true, true, false⟩ ⟨41, [], [], 1, 1⟩ "ACCTS" 0 "X" [] "s" "").2.1 = true :=
  claim9_insert_success_reports_true ⟨true, true, false⟩ ⟨41, [], [], 1, 1⟩
    "ACCTS" 0 "X" [] "s" "" rfl rfl

/-- C3: a successful allocation appends exactly one record whose
dispatch number is `HDU/<section>/<start>` when the CC count is 0 and
`HDU/<section>/<start>-<end>` otherwise, with `start = last_no + 1`,
`end = start + ccCount`, and `start`, `end` positive. -/
theorem claim3_formatted_number (env : Env) (db : DB) (sect : String)
    (date_val : Nat) (address : String) (cc_list : List String)
    (subject remarks : String)
    (_hs : sect = "ACCTS" ∨ sect = "ESTAB" ∨ sect = "DB" ∨ sect = "CAMP")
    (h1 : env.rpc_ok = true) (h2 : env.insert_ok = true) :
    ∃ r : DispatchRecord,
      (insert_data env db sect date_val address cc_list subject remarks).1.records
        = db.records ++ [r] ∧
      r.no = (if cc_list.length = 0 then
          "HDU/" ++ sect ++ "/" ++ Nat.repr (db.last_no + 1)
        else
          "HDU/" ++ sect ++ "/" ++ Nat.repr (db.last_no + 1) ++ "-" ++
            Nat.repr (db.last_no + 1 + cc_list.length)) ∧
      0 < db.last_no + 1 ∧ db.last_no + 1 ≤ db.last_no + 1 + cc_list.length := by
  refine ⟨{ id := db.next_record_id,
            no := generated_no sect (db.last_no + 1) (db.last_no + 1 + cc_list.length)
              cc_list.length,
            date := date_val, sect := sect, address := address,
            cc := if cc_list.isEmpty then none else some (String.intercalate ", " cc_list),
            subject := subject, remarks := remarks }, ?_, ?_, ?_, ?_⟩
  · cases h3 : env.update_ok <;>
      simp [insert_data, h1, h2, h3, get_next_dispatch_no, count_cc_recipients]
  · simp [generated_no]
  · omega
  · omega

theorem claim3_witness :
    ∃ r : DispatchRecord,
      (insert_data ⟨true, true, true⟩ ⟨41, [], [], 1, 1⟩ "ACCTS" 0 "X" ["A"] "s" "").1.records
        = ([] : List DispatchRecord) ++ [r] ∧
      r.no = (if (["A"] : List String).length = 0 then
          "HDU/" ++ "ACCTS" ++ "/" ++ Nat.repr (41 + 1)
        else
          "HDU/" ++ "ACCTS" ++ "/" ++ Nat.repr (41 + 1) ++ "-" ++ Nat.repr (41 + 1 + 1)) ∧
      0 < 41 + 1 ∧ 41 + 1 ≤ 41 + 1 + 1 := by
  have h := claim3_formatted_number ⟨true, true, true⟩ ⟨41, [], [], 1, 1⟩ "ACCTS" 0 "X"
    ["A"] "s" "" (Or.inl rfl) rfl rfl
  simpa using h

/-- The concrete counterexample database for C6: one dispatch record
addressed to `Bob` with the single CC recipient `Ali`, and contacts
including `Al`, whom no record references. -/
def dbC6 : DB :=
  ⟨42, [⟨1, "HDU/ACCTS/42", 20240101, "ACCTS", "Bob", some "Ali", "subj", ""⟩],
    [⟨5, "Al"⟩, ⟨6, "Ali"⟩, ⟨7, "Bob"⟩], 2, 8⟩

/-- C6, counterexample: the contact `Al` is neither the address of any
record nor an element of any record's CC list, yet `delete_contact`
refuses to remove it with the in-use warning, because the code tests the
CC column with `LIKE '%Al%'` and `Al` is a substring of the stored CC
entry `Ali`.  So removal does not fail *only if* the contact is
referenced, refuting the claimed equivalence. -/
theorem claim6_counterexample :
    referencedAsElement dbC6 "Al" = false ∧
    (delete_contact dbC6 5 "Al").2.1 = false ∧
    hasWarning (delete_contact dbC6 5 "Al").2.2 = true ∧
    (delete_contact dbC6 5 "Al").1 = dbC6 := by
  decide

/-- C6, amended: contact removal fails with the in-use warning if and
only if some record's address equals the contact's name or the name
occurs as a substring of some record's comma-joined CC string; removing
a contact that is unreferenced in this substring sense succeeds (when
the id is present) and the contact no longer appears in the store. -/
theorem claim6_amended_substring_guard (db : DB) (cid : Nat) (name : String) :
    hasWarning (delete_contact db cid name).2.2 = usedBySubstring db name ∧
    (usedBySubstring db name = false →
      (db.contacts.any fun c => c.id == cid) = true →
      (delete_contact db cid name).2.1 = true ∧
      ((delete_contact db cid name).1.contacts.all fun c => c.id != cid) = true) := by
  have key : (0 < db.records.countP (fun r => r.address == name) ∨
      0 < db.records.countP (fun r => ccLike r name)) ↔ usedBySubstring db name = true := by
    rw [usedBySubstring, Bool.or_eq_true, countP_pos_iff_any, countP_pos_iff_any]
  constructor
  · by_cases h : usedBySubstring db name = true
    · rw [h]
      simp only [delete_contact]
      rw [if_pos (key.mpr h)]
      rfl
    · have h' : usedBySubstring db name = false := by simpa using h
      rw [h']
      simp only [delete_contact]
      rw [if_neg fun hc => h (key.mp hc)]
      split <;> rfl
  · intro hu hc
    simp only [delete_contact]
    rw [if_neg fun hcond => by rw [key.mp hcond] at hu; exact absurd hu (by simp)]
    rw [if_pos hc]
    refine ⟨rfl, ?_⟩
    rw [List.all_eq_true]
    intro c hcm
    exact (List.mem_filter.mp hcm).2

/-- The concrete witness database for the amended C6: the contact `Zed`
is unreferenced by the stored record in both the exact-address and the
substring sense. -/
def dbW6 : DB :=
  ⟨42, [⟨1, "HDU/ACCTS/42", 20240101, "ACCTS", "Bob", some "Ali", "subj", ""⟩],
    [⟨9, "Zed"⟩], 2, 10⟩

theorem claim6_amended_witness :
    usedBySubstring dbW6 "Zed" = false ∧
    (delete_contact dbW6 9 "Zed").2.1 = true ∧
    ((delete_contact dbW6 9 "Zed").1.contacts.all fun c => c.id != 9) = true := by
  have h := (claim6_amended_substring_guard dbW6 9 "Zed").2 (by decide) (by decide)
  exact ⟨by decide, h.1, h.2⟩

/-- C8: for every date range, `fetch_data` returns exactly the records
whose date lies within the range, ordered by date descending with ties
broken by id descending. -/
theorem claim8_query_filter_and_order (db : DB) (sd ed : Option Nat) :
    List.Pairwise (fun a b => b.date < a.date ∨ (a.date = b.date ∧ b.id ≤ a.id))
      (fetch_data db sd ed) ∧
    List.Perm (fetch_data db sd ed) (db.records.filter (inDateRange sd ed)) ∧
    ∀ r, r ∈ fetch_data db sd ed ↔ r ∈ db.records ∧ inDateRange sd ed r = true := by
  have htrans : ∀ a b c : DispatchRecord, dateIdDesc a b = true → dateIdDesc b c = true →
      dateIdDesc a c = true := by
    intro a b c hab hbc
    simp only [dateIdDesc, Bool.or_eq_true, Bool.and_eq_true, decide_eq_true_eq,
      beq_iff_eq] at hab hbc ⊢
    omega
  have htotal : ∀ a b : DispatchRecord, (dateIdDesc a b || dateIdDesc b a) = true := by
    intro a b
    simp only [dateIdDesc, Bool.or_eq_true, Bool.and_eq_true, decide_eq_true_eq,
      beq_iff_eq]
    omega
  have hperm : List.Perm (fetch_data db sd ed) (db.records.filter (inDateRange sd ed)) :=
    List.mergeSort_perm (db.records.filter (inDateRange sd ed)) dateIdDesc
  refine ⟨?_, hperm, fun r => hperm.mem_iff.trans List.mem_filter⟩
  have hs := List.sorted_mergeSort htrans htotal (db.records.filter (inDateRange sd ed))
  refine (hs.imp fun {a b} h => ?_)
  simp only [dateIdDesc, Bool.or_eq_true, Bool.and_eq_true, decide_eq_true_eq,
    beq_iff_eq] at h
  tauto

/-- C10 (implicit): both contact-writing operations preserve the
invariant that every stored contact name is non-empty and free of
leading and trailing whitespace — an accepted name is stored in
`strip`ped form — and an empty or whitespace-only input is rejected
without touching the store. -/
theorem claim10_contact_names_stripped (db : DB) (name : String) (cid : Nat)
    (h : goodStore db.contacts = true) :
    goodStore (add_contact db name).1.contacts = true ∧
    goodStore (update_contact db cid name).1.contacts = true ∧
    (pyStrip name = "" →
      (add_contact db name).1 = db ∧ (add_contact db name).2.1 = false ∧
      (update_contact db cid name).1 = db ∧ (update_contact db cid name).2.1 = false) := by
  refine ⟨?_, ?_, fun hempty => ?_⟩
  · unfold add_contact
    split
    · exact h
    split
    · exact h
    · rename_i hguard _
      push_neg at hguard
      simp only [goodStore, List.all_append, List.all_cons, List.all_nil, Bool.and_true]
      rw [goodStore] at h
      rw [h]
      simp [goodName, pyStrip_idem, hguard.2]
  · unfold update_contact
    split
    · exact h
    split
    · exact h
    split
    · rename_i hguard _ _
      push_neg at hguard
      rw [goodStore, List.all_eq_true]
      intro c hc
      rw [List.mem_map] at hc
      obtain ⟨c0, hc0, rfl⟩ := hc
      by_cases hid : c0.id = cid
      · simp only [hid, if_pos]
        simp [goodName, pyStrip_idem, hguard.2]
      · simp only [if_neg hid]
        exact (List.all_eq_true.mp h) c0 hc0
    · exact h
  · have hg : name = "" ∨ pyStrip name = "" := Or.inr hempty
    refine ⟨?_, ?_, ?_, ?_⟩
    · unfold add_contact
      rw [if_pos hg]
    · unfold add_contact
      rw [if_pos hg]
    · unfold update_contact
      rw [if_pos hg]
    · unfold update_contact
      rw [if_pos hg]

theorem claim10_witness :
    goodStore (add_contact ⟨0, [], [⟨1, "Bob"⟩], 1, 2⟩ " Carol ").1.contacts = true ∧
    pyStrip "  " = "" ∧
    (add_contact ⟨0, [], [⟨1, "Bob"⟩], 1, 2⟩ "  ").1 = ⟨0, [], [⟨1, "Bob"⟩], 1, 2⟩ ∧
    (add_contact ⟨0, [], [⟨1, "Bob"⟩], 1, 2⟩ "  ").2.1 = false := by
  have h1 := claim10_contact_names_stripped ⟨0, [], [⟨1, "Bob"⟩], 1, 2⟩ " Carol " 1 (by decide)
  have h2 := (claim10_contact_names_stripped ⟨0, [], [⟨1, "Bob"⟩], 1, 2⟩ "  " 1 (by decide)).2.2
    (by decide)
  exact ⟨h1.1, by decide, h2.1, h2.2.1⟩

end Dispatch
